import Mathlib

/-!
Verification of the disaster-ontology knowledge-graph service.

The development shallowly embeds the program's core:
* `src/sparql_engine.py` — `run_query`, `_format_value`, the predefined query
  catalog and `run_predefined_query`;
* `src/app.py` — the shelter/resource read endpoints and the dynamic class
  resolution of `add_disaster`;
* the knowledge-graph store, its mutation boundary, persistence codec and the
  evaluation of two fixed queries, which the program delegates to the owlready2
  and rdflib libraries and the specification describes as the core design;
  those parts are modelled from the spec (each such definition says so).

Machine integers are modelled as `Int` (Python integers are unbounded);
Python `round(x, 1)` on the occupancy rate is modelled as exact rational
rounding to one decimal.
-/

/-- A value stored in the knowledge graph: a literal string, an integer
literal, or a reference to another instance's identifier. -/
inductive Value where
  | lit (s : String)
  | int (n : Int)
  | ref (id : String)
deriving DecidableEq

/-- Display string of a value, mirroring Python `str(value)` on rdflib terms
(references render as their identifier). -/
def Value.asString : Value → String
  | .lit s => s
  | .int n => toString n
  | .ref id => id

/-- Embeds `SPARQLEngine._format_value` (src/sparql_engine.py:42-50):
`None` renders as `"N/A"`; otherwise the string form, with everything up to
the last `#` stripped for display.  Python's
`value_str.split("#")[-1] if "#" in value_str` is rendered on the character
list: the suffix after the last `#` (the whole string when there is none). -/
def formatValue (v : Option Value) : String :=
  match v with
  | none => "N/A"
  | some v =>
    let s := v.asString
    if s.data.contains '#' then
      ⟨(s.data.reverse.takeWhile (fun c => c != '#')).reverse⟩
    else s

/-- Result dictionary of `run_query` (src/sparql_engine.py:30-40); `count` is
present only on the success branch and `error` only on the failure branch. -/
structure QueryResponse where
  success : Bool
  results : List (List String)
  count : Option Int
  error : Option String
deriving DecidableEq

/-- Embeds `SPARQLEngine.run_query` (src/sparql_engine.py:15-40).  The body of
the Python `try` block — `self.graph.query` plus row extraction, which is
rdflib code outside this repository — is abstracted as `evalq`, returning the
variable headers and rows (`none` = unbound OPTIONAL column) on success and an
exception message on failure.  The `except Exception` arm is the structured
failure dictionary. -/
def run_query (evalq : String → Except String (List String × List (List (Option Value))))
    (query_string : String) : QueryResponse :=
  match evalq query_string with
  | .ok (vars, rows) =>
    let header : List (List String) := if vars.isEmpty then [] else [vars]
    let results := header ++ rows.map (fun row => row.map formatValue)
    { success := true, results := results,
      count := some (if results.isEmpty then 0 else (results.length : Int) - 1),
      error := none }
  | .error e =>
    { success := false, results := [], count := none, error := some e }

/-- One entry of the predefined query catalog (name, description, query). -/
structure PredefEntry where
  name : String
  description : String
  query : String
deriving DecidableEq

/-- The `critical_resources` catalog entry (src/sparql_engine.py:293-308),
named so that theorems can refer to its stored query string. -/
def criticalResourcesEntry : PredefEntry :=
  ⟨"Critical Resource Levels",
   "Resources with quantity less than 1000",
   "\nPREFIX d: <http://www.srilanka.gov/disaster.owl#>\n\nSELECT ?resource ?name ?quantity\nWHERE \x7b\n  ?resource rdf:type/rdfs:subClassOf* d:Resource .\n  ?resource d:quantityAvailable ?quantity .\n  FILTER(?quantity < 1000)\n  OPTIONAL \x7b ?resource d:hasName ?name \x7d\n\x7d\nORDER BY ?quantity\n"⟩

/-- Embeds `SPARQLEngine.PREDEFINED_QUERIES` (src/sparql_engine.py:53-344),
key for key and string for string (`\x7b`/`\x7d` are the braces of the SPARQL
text). -/
def PREDEFINED_QUERIES : List (String × PredefEntry) := [
  ("all_disasters",
   ⟨"All Disasters",
    "List all disasters with their severity and location",
    "\nPREFIX d: <http://www.srilanka.gov/disaster.owl#>\nPREFIX rdf: <http://www.w3.org/1999/02/22-rdf-syntax-ns#>\n\nSELECT ?disaster ?name ?severity ?location\nWHERE \x7b\n  ?disaster rdf:type/rdfs:subClassOf* d:Disaster .\n  OPTIONAL \x7b ?disaster d:hasName ?name \x7d\n  OPTIONAL \x7b ?disaster d:severityLevel ?severity \x7d\n  OPTIONAL \x7b ?disaster d:occursIn ?loc .\n             ?loc d:hasName ?location \x7d\n\x7d\nORDER BY ?severity\n"⟩),
  ("high_severity",
   ⟨"High Severity Disasters",
    "Find all high severity disasters",
    "\nPREFIX d: <http://www.srilanka.gov/disaster.owl#>\n\nSELECT ?disaster ?name ?type ?location ?date\nWHERE \x7b\n  ?disaster rdf:type ?type .\n  ?type rdfs:subClassOf d:Disaster .\n  ?disaster d:severityLevel \"High\" .\n  OPTIONAL \x7b ?disaster d:hasName ?name \x7d\n  OPTIONAL \x7b ?disaster d:occursIn ?loc .\n             ?loc d:hasName ?location \x7d\n  OPTIONAL \x7b ?disaster d:dateOccurred ?date \x7d\n\x7d\nORDER BY DESC(?date)\n"⟩),
  ("active_disasters",
   ⟨"Active Disasters",
    "List all currently active disasters",
    "\nPREFIX d: <http://www.srilanka.gov/disaster.owl#>\n\nSELECT ?disaster ?name ?severity ?location\nWHERE \x7b\n  ?disaster rdf:type/rdfs:subClassOf* d:Disaster .\n  ?disaster d:status \"Active\" .\n  OPTIONAL \x7b ?disaster d:hasName ?name \x7d\n  OPTIONAL \x7b ?disaster d:severityLevel ?severity \x7d\n  OPTIONAL \x7b ?disaster d:occursIn ?loc .\n             ?loc d:hasName ?location \x7d\n\x7d\n"⟩),
  ("shelter_capacity",
   ⟨"Shelter Capacity Analysis",
    "Show shelters with their capacity and occupancy",
    "\nPREFIX d: <http://www.srilanka.gov/disaster.owl#>\n\nSELECT ?shelter ?name ?capacity ?occupancy (?capacity - ?occupancy AS ?available)\nWHERE \x7b\n  ?shelter rdf:type d:Shelter .\n  OPTIONAL \x7b ?shelter d:hasName ?name \x7d\n  OPTIONAL \x7b ?shelter d:capacity ?capacity \x7d\n  OPTIONAL \x7b ?shelter d:currentOccupancy ?occupancy \x7d\n\x7d\nORDER BY DESC(?available)\n"⟩),
  ("available_shelters",
   ⟨"Available Shelters",
    "Shelters with available space",
    "\nPREFIX d: <http://www.srilanka.gov/disaster.owl#>\n\nSELECT ?shelter ?name ?capacity ?occupancy (?capacity - ?occupancy AS ?available) ?status\nWHERE \x7b\n  ?shelter rdf:type d:Shelter .\n  ?shelter d:capacity ?capacity .\n  ?shelter d:currentOccupancy ?occupancy .\n  FILTER(?capacity > ?occupancy)\n  OPTIONAL \x7b ?shelter d:hasName ?name \x7d\n  OPTIONAL \x7b ?shelter d:status ?status \x7d\n\x7d\nORDER BY DESC(?available)\n"⟩),
  ("floods_only",
   ⟨"All Floods",
    "List only flood disasters",
    "\nPREFIX d: <http://www.srilanka.gov/disaster.owl#>\n\nSELECT ?flood ?name ?severity ?location ?date\nWHERE \x7b\n  ?flood rdf:type d:Flood .\n  OPTIONAL \x7b ?flood d:hasName ?name \x7d\n  OPTIONAL \x7b ?flood d:severityLevel ?severity \x7d\n  OPTIONAL \x7b ?flood d:occursIn ?loc .\n             ?loc d:hasName ?location \x7d\n  OPTIONAL \x7b ?flood d:dateOccurred ?date \x7d\n\x7d\nORDER BY DESC(?date)\n"⟩),
  ("landslides_only",
   ⟨"All Landslides",
    "List only landslide disasters",
    "\nPREFIX d: <http://www.srilanka.gov/disaster.owl#>\n\nSELECT ?landslide ?name ?severity ?location ?date\nWHERE \x7b\n  ?landslide rdf:type d:Landslide .\n  OPTIONAL \x7b ?landslide d:hasName ?name \x7d\n  OPTIONAL \x7b ?landslide d:severityLevel ?severity \x7d\n  OPTIONAL \x7b ?landslide d:occursIn ?loc .\n             ?loc d:hasName ?location \x7d\n  OPTIONAL \x7b ?landslide d:dateOccurred ?date \x7d\n\x7d\nORDER BY DESC(?date)\n"⟩),
  ("disaster_resources",
   ⟨"Disaster Resources Required",
    "Show disasters and their required resources",
    "\nPREFIX d: <http://www.srilanka.gov/disaster.owl#>\n\nSELECT ?disaster ?disasterName ?resource ?resourceName\nWHERE \x7b\n  ?disaster rdf:type/rdfs:subClassOf* d:Disaster .\n  ?disaster d:requiresResource ?resource .\n  OPTIONAL \x7b ?disaster d:hasName ?disasterName \x7d\n  OPTIONAL \x7b ?resource d:hasName ?resourceName \x7d\n\x7d\nORDER BY ?disaster\n"⟩),
  ("volunteers_assignments",
   ⟨"Volunteer Assignments",
    "List volunteers and their shelter assignments",
    "\nPREFIX d: <http://www.srilanka.gov/disaster.owl#>\n\nSELECT ?volunteer ?volName ?shelter ?shelterName ?skillLevel\nWHERE \x7b\n  ?volunteer rdf:type d:Volunteer .\n  ?volunteer d:assignedTo ?shelter .\n  OPTIONAL \x7b ?volunteer d:hasName ?volName \x7d\n  OPTIONAL \x7b ?volunteer d:skillLevel ?skillLevel \x7d\n  OPTIONAL \x7b ?shelter d:hasName ?shelterName \x7d\n\x7d\nORDER BY ?shelter\n"⟩),
  ("resource_inventory",
   ⟨"Resource Inventory",
    "Show all resources and their quantities",
    "\nPREFIX d: <http://www.srilanka.gov/disaster.owl#>\n\nSELECT ?resource ?name ?type ?quantity\nWHERE \x7b\n  ?resource rdf:type ?type .\n  ?type rdfs:subClassOf* d:Resource .\n  OPTIONAL \x7b ?resource d:hasName ?name \x7d\n  OPTIONAL \x7b ?resource d:quantityAvailable ?quantity \x7d\n\x7d\nORDER BY ?quantity\n"⟩),
  ("district_disasters",
   ⟨"Disasters by District",
    "Count disasters per district",
    "\nPREFIX d: <http://www.srilanka.gov/disaster.owl#>\n\nSELECT ?district ?districtName (COUNT(?disaster) AS ?disasterCount)\nWHERE \x7b\n  ?district rdf:type d:District .\n  OPTIONAL \x7b ?district d:hasName ?districtName \x7d\n  OPTIONAL \x7b ?disaster d:occursIn ?district \x7d\n\x7d\nGROUP BY ?district ?districtName\nORDER BY DESC(?disasterCount)\n"⟩),
  ("full_shelter_info",
   ⟨"Complete Shelter Information",
    "Detailed shelter information including contact",
    "\nPREFIX d: <http://www.srilanka.gov/disaster.owl#>\n\nSELECT ?shelter ?name ?capacity ?occupancy ?status ?contact\nWHERE \x7b\n  ?shelter rdf:type d:Shelter .\n  OPTIONAL \x7b ?shelter d:hasName ?name \x7d\n  OPTIONAL \x7b ?shelter d:capacity ?capacity \x7d\n  OPTIONAL \x7b ?shelter d:currentOccupancy ?occupancy \x7d\n  OPTIONAL \x7b ?shelter d:status ?status \x7d\n  OPTIONAL \x7b ?shelter d:contactNumber ?contact \x7d\n\x7d\nORDER BY ?name\n"⟩),
  ("disasters_2024",
   ⟨"Disasters in 2024",
    "All disasters that occurred in 2024",
    "\nPREFIX d: <http://www.srilanka.gov/disaster.owl#>\nPREFIX xsd: <http://www.w3.org/2001/XMLSchema#>\n\nSELECT ?disaster ?name ?type ?severity ?date\nWHERE \x7b\n  ?disaster rdf:type ?type .\n  ?type rdfs:subClassOf d:Disaster .\n  ?disaster d:dateOccurred ?date .\n  FILTER(YEAR(?date) = 2024)\n  OPTIONAL \x7b ?disaster d:hasName ?name \x7d\n  OPTIONAL \x7b ?disaster d:severityLevel ?severity \x7d\n\x7d\nORDER BY ?date\n"⟩),
  ("critical_resources", criticalResourcesEntry),
  ("central_province_disasters",
   ⟨"Central Province Disasters",
    "Disasters in Central Province districts",
    "\nPREFIX d: <http://www.srilanka.gov/disaster.owl#>\n\nSELECT ?disaster ?disasterName ?district ?districtName ?severity\nWHERE \x7b\n  ?disaster d:occursIn ?district .\n  ?district d:locatedIn d:CentralProvince .\n  OPTIONAL \x7b ?disaster d:hasName ?disasterName \x7d\n  OPTIONAL \x7b ?district d:hasName ?districtName \x7d\n  OPTIONAL \x7b ?disaster d:severityLevel ?severity \x7d\n\x7d\n"⟩),
  ("advanced_volunteers",
   ⟨"Advanced Skill Volunteers",
    "Volunteers with advanced skills",
    "\nPREFIX d: <http://www.srilanka.gov/disaster.owl#>\n\nSELECT ?volunteer ?name ?shelter ?shelterName ?contact\nWHERE \x7b\n  ?volunteer rdf:type d:Volunteer .\n  ?volunteer d:skillLevel \"Advanced\" .\n  OPTIONAL \x7b ?volunteer d:hasName ?name \x7d\n  OPTIONAL \x7b ?volunteer d:assignedTo ?shelter .\n             ?shelter d:hasName ?shelterName \x7d\n  OPTIONAL \x7b ?volunteer d:contactNumber ?contact \x7d\n\x7d\n"⟩)
]

/-- Embeds `SPARQLEngine.run_predefined_query` (src/sparql_engine.py:357-367):
catalog lookup, then either `run_query` on the stored query string or the
fixed `"Query not found"` failure dictionary. -/
def run_predefined_query
    (evalq : String → Except String (List String × List (List (Option Value))))
    (query_id : String) : QueryResponse :=
  match PREDEFINED_QUERIES.find? (fun p => p.1 == query_id) with
  | some p => run_query evalq p.2.query
  | none => { success := false, results := [], count := none, error := some "Query not found" }

/-- A class declaration of the schema registry: a name and its ordered list of
declared parent class names. -/
structure ClassDecl where
  name : String
  parents : List String
deriving DecidableEq

/-- An instance of the knowledge-graph store: unique identifier, one declared
type, and an ordered association list from property name to the ordered
sequence of its values. -/
structure Instance where
  id : String
  declaredType : String
  props : List (String × List Value)
deriving DecidableEq

/-- The knowledge-graph store: the class DAG plus the instances in creation
order. -/
structure Store where
  classes : List ClassDecl
  instances : List Instance
deriving DecidableEq

/-- Modelled from the spec (§4.2 `getProperty`, absent from src — the program
reads owlready2 attributes): the ordered value sequence of a property, empty
if absent. -/
def getProperty (i : Instance) (name : String) : List Value :=
  match i.props.find? (fun pv => pv.1 == name) with
  | some pv => pv.2
  | none => []

/-- Append one value to a property of an association list, creating the entry
at the end when the property is new. -/
def appendPropList (props : List (String × List Value)) (p : String) (v : Value) :
    List (String × List Value) :=
  match props with
  | [] => [(p, [v])]
  | (q, vs) :: rest =>
    if q = p then (q, vs ++ [v]) :: rest
    else (q, vs) :: appendPropList rest p v

/-- Replace a property's value sequence, creating the entry at the end when
the property is new. -/
def setPropList (props : List (String × List Value)) (p : String) (vs : List Value) :
    List (String × List Value) :=
  match props with
  | [] => [(p, vs)]
  | (q, ws) :: rest =>
    if q = p then (q, vs) :: rest
    else (q, ws) :: setPropList rest p vs

/-- Drop a property's entry from an association list. -/
def removePropList (props : List (String × List Value)) (p : String) :
    List (String × List Value) :=
  props.filter (fun pv => !(pv.1 == p))

/-- Rewrite the first instance carrying the given identifier. -/
def updateInstance (l : List Instance) (id : String) (f : Instance → Instance) :
    List Instance :=
  match l with
  | [] => []
  | i :: rest => if i.id = id then f i :: rest else i :: updateInstance rest id f

/-- Modelled from the spec (§4.1 `registerClass`, absent from src — class
bookkeeping is delegated to owlready2): a duplicate name with the same parents
is a no-op, a duplicate name with different parents fails with
`DuplicateClass`, and a new class whose parent is unknown fails with
`UnknownParentClass`. -/
def registerClass (s : Store) (name : String) (parents : List String) :
    Except String Store :=
  match s.classes.find? (fun c => c.name == name) with
  | some c => if c.parents = parents then .ok s else .error "DuplicateClass"
  | none =>
    if parents.all (fun p => (s.classes.find? (fun c => c.name == p)).isSome) then
      .ok { s with classes := s.classes ++ [⟨name, parents⟩] }
    else .error "UnknownParentClass"

/-- Modelled from the spec (§4.2 `createInstance`, absent from src): fails
with `DuplicateInstanceId` when the identifier exists, otherwise appends a
fresh instance with no properties. -/
def createInstance (s : Store) (type id : String) : Except String Store :=
  if s.instances.any (fun i => i.id == id) then .error "DuplicateInstanceId"
  else .ok { s with instances := s.instances ++ [⟨id, type, []⟩] }

/-- Modelled from the spec (§4.2 `setProperty`, absent from src): full
replacement of a property's value sequence; an empty sequence removes the
entry (absence is the normal empty state). -/
def setProperty (s : Store) (id p : String) (vs : List Value) : Store :=
  { s with instances := updateInstance s.instances id (fun i =>
      { i with props := if vs.isEmpty then removePropList i.props p
                        else setPropList i.props p vs }) }

/-- Modelled from the spec (§4.2 `appendProperty`, absent from src):
append-only multi-valued accumulation. -/
def appendProperty (s : Store) (id p : String) (v : Value) : Store :=
  { s with instances := updateInstance s.instances id (fun i =>
      { i with props := appendPropList i.props p v }) }

/-- Modelled from the spec (§4.2 `deleteInstance`, absent from src): removes
the instance and its own properties, leaving inbound references dangling. -/
def deleteInstance (s : Store) (id : String) : Store :=
  { s with instances := s.instances.filter (fun i => !(i.id == id)) }

/-- Well-formed association list of properties: no repeated property name, no
empty value sequence. -/
def PropsWF (props : List (String × List Value)) : Prop :=
  (props.map Prod.fst).Nodup ∧ ∀ pv ∈ props, pv.2 ≠ []

/-- Well-formed store: instance identifiers are unique and every instance's
property list is well-formed. -/
def StoreWF (s : Store) : Prop :=
  (s.instances.map Instance.id).Nodup ∧ ∀ i ∈ s.instances, PropsWF i.props

/-- The stores reachable through the mutation boundary, starting from the
empty store. -/
inductive Built : Store → Prop where
  | empty : Built ⟨[], []⟩
  | regClass {s s' : Store} {n : String} {ps : List String} :
      Built s → registerClass s n ps = .ok s' → Built s'
  | createInst {s s' : Store} {t id : String} :
      Built s → createInstance s t id = .ok s' → Built s'
  | setProp {s : Store} {id p : String} {vs : List Value} :
      Built s → Built (setProperty s id p vs)
  | appendProp {s : Store} {id p : String} {v : Value} :
      Built s → Built (appendProperty s id p v)
  | deleteInst {s : Store} {id : String} :
      Built s → Built (deleteInstance s id)

/-- One line of the persisted document: a class declaration, an instance
declaration, or a property triple. -/
inductive DocLine where
  | classDecl (name : String) (parents : List String)
  | instDecl (id type : String)
  | propTriple (subj prop : String) (v : Value)
deriving DecidableEq

/-- The property triples of one instance, in property order then value
order. -/
def instTriples (i : Instance) : List DocLine :=
  i.props.flatMap (fun pv => pv.2.map (fun v => DocLine.propTriple i.id pv.1 v))

/-- Modelled from the spec (§4.4 and §6 persisted-state layout, absent from
src — serialization is delegated to owlready2's rdfxml writer): class
declarations, then instance declarations, then property triples. -/
def save (s : Store) : List DocLine :=
  s.classes.map (fun c => DocLine.classDecl c.name c.parents)
    ++ s.instances.map (fun i => DocLine.instDecl i.id i.declaredType)
    ++ s.instances.flatMap instTriples

/-- Replay one document line into a store under construction. -/
def loadLine (s : Store) : DocLine → Store
  | .classDecl n ps => { s with classes := s.classes ++ [⟨n, ps⟩] }
  | .instDecl id t => { s with instances := s.instances ++ [⟨id, t, []⟩] }
  | .propTriple subj p v =>
      { s with instances := updateInstance s.instances subj (fun i =>
          { i with props := appendPropList i.props p v }) }

/-- Modelled from the spec (§4.4 `load`, absent from src): replays the
document into an initially empty store. -/
def load (doc : List DocLine) : Store :=
  doc.foldl loadLine ⟨[], []⟩

/-- An instance with the same identifier and declared type but no properties
yet, as rebuilt by an instance-declaration line. -/
def stripInst (i : Instance) : Instance :=
  ⟨i.id, i.declaredType, []⟩

/-- Look an instance up by identifier. -/
def lookupInst (s : Store) (id : String) : Option Instance :=
  s.instances.find? (fun i => i.id == id)

/-- Stable insertion into a sorted list: `le b a` says the already-placed `b`
may stay ahead of the new, originally-later `a`. -/
def stableInsert (le : α → α → Bool) (a : α) : List α → List α
  | [] => [a]
  | b :: bs => if le b a then b :: stableInsert le a bs else a :: b :: bs

/-- Stable insertion sort, the ORDER BY of the query engine (spec §4.3 step
6). -/
def stableSort (le : α → α → Bool) : List α → List α
  | [] => []
  | a :: rest => stableInsert le a (stableSort le rest)

/-- Boolean string order used by ORDER BY on an identifier column. -/
def leStr (a b : String) : Bool :=
  if a < b then true else a == b

/-- The bindings an OPTIONAL single-pattern block contributes to one base row
(spec §4.3 step 3): one unbound binding when nothing matches, otherwise one
binding per match. -/
def optBindings (vs : List Value) : List (Option Value) :=
  if vs.isEmpty then [none] else vs.map some

/-- The `?shelter d:hasName ?shelterName` matches for one bound shelter
value: the names of the referenced instance, empty when the binding is not a
reference or the reference dangles. -/
def shelterNameCandidates (s : Store) (sv : Value) : List Value :=
  match sv with
  | .ref sid =>
    match lookupInst s sid with
    | some sh => getProperty sh "hasName"
    | none => []
  | _ => []

/-- One result row of the `volunteers_assignments` predefined query. -/
structure VolRow where
  volunteer : String
  volName : String
  shelter : String
  shelterName : String
  skillLevel : String
deriving DecidableEq

/-- Modelled from the spec (§4.3, evaluation delegated to rdflib): the
`volunteers_assignments` query of src/sparql_engine.py:202-218.  Required
patterns: `?volunteer rdf:type d:Volunteer` and
`?volunteer d:assignedTo ?shelter` (one row per assigned value); OPTIONAL
blocks bind `?volName`, `?shelterName` (through the referenced shelter
instance, unbound when the reference dangles) and `?skillLevel`; ORDER BY
`?shelter`. -/
def volunteersAssignments (s : Store) : List VolRow :=
  stableSort (fun r1 r2 => leStr r1.shelter r2.shelter)
    ((s.instances.filter (fun i => i.declaredType == "Volunteer")).flatMap (fun v =>
      (getProperty v "assignedTo").flatMap (fun sv =>
        (optBindings (getProperty v "hasName")).flatMap (fun nb =>
          (optBindings (shelterNameCandidates s sv)).flatMap (fun snb =>
            (optBindings (getProperty v "skillLevel")).map (fun skb =>
              ⟨v.id, formatValue nb, formatValue (some sv), formatValue snb,
               formatValue skb⟩))))))

/-- Display string of the first value of an OPTIONAL-bound single-valued
property, `"N/A"` when absent. -/
def firstValueStr (vs : List Value) : String :=
  match vs with
  | [] => "N/A"
  | v :: _ => formatValue (some v)

/-- One output row of the `district_disasters` predefined query. -/
structure DistrictRow where
  district : String
  districtName : String
  disasterCount : Int
deriving DecidableEq

/-- Modelled from the spec (§4.3, evaluation delegated to rdflib): the
`district_disasters` query of src/sparql_engine.py:237-252.  Base pattern
`?district rdf:type d:District`; OPTIONAL `?disaster d:occursIn ?district`
fans out over matching subjects and GROUP BY district COUNT(?disaster) counts
them (zero when only the unbound row remains); ORDER BY DESC(?disasterCount)
is a stable descending sort. -/
def districtDisasters (s : Store) : List DistrictRow :=
  stableSort (fun r1 r2 => decide (r2.disasterCount ≤ r1.disasterCount))
    ((s.instances.filter (fun i => i.declaredType == "District")).map (fun d =>
      ⟨d.id, firstValueStr (getProperty d "hasName"),
       ((s.instances.filter (fun i =>
           (getProperty i "occursIn").contains (Value.ref d.id))).length : Int)⟩))

/-- An owlready2 shelter as read by the endpoints of src/app.py: the raw
identifier plus the multi-valued attributes accessed there. -/
structure ShelterRec where
  name : String
  hasName : List String
  capacity : List Int
  currentOccupancy : List Int
  status : List String
  contactNumber : List String
deriving DecidableEq

/-- `xs[0] if xs else 0`, the defaulting read used throughout src/app.py. -/
def headI (l : List Int) : Int :=
  l.headD 0

/-- One row of the `/shelters/available` response (src/app.py:125-131). -/
structure AvailShelterInfo where
  id : String
  name : String
  available_space : Int
  capacity : Int
  status : String
deriving DecidableEq

/-- The dictionary built for a shelter that passes the availability check in
`get_available_shelters` (src/app.py:124-132). -/
def availInfo (s : ShelterRec) : AvailShelterInfo :=
  ⟨s.name, s.hasName.headD s.name,
   headI s.capacity - headI s.currentOccupancy,
   headI s.capacity, s.status.headD "Unknown"⟩

/-- Embeds `get_available_shelters` (src/app.py:116-133): keep exactly the
shelters with `capacity > occupancy` (missing values default to 0). -/
def get_available_shelters (shelters : List ShelterRec) : List AvailShelterInfo :=
  shelters.filterMap (fun s =>
    if headI s.capacity > headI s.currentOccupancy then some (availInfo s)
    else none)

/-- Python `round(x, 1)` modelled as exact rational rounding to one decimal
place. -/
def round1 (q : Rat) : Rat :=
  ((round (q * 10) : Int) : Rat) / 10

/-- The guarded occupancy-rate expression shared by `get_shelters`
(src/app.py:109) and `get_shelter_details` (src/app.py:159):
`round((occupancy / capacity * 100), 1) if capacity > 0 else 0`. -/
def occupancy_rate (capacity occupancy : Int) : Rat :=
  if capacity > 0 then round1 ((occupancy : Rat) / (capacity : Rat) * 100)
  else 0

/-- One row of the `/shelters` response (src/app.py:103-112); the same fields
open the `/shelter/<name>` response (src/app.py:153-161). -/
structure ShelterInfo where
  id : String
  name : String
  capacity : Int
  current_occupancy : Int
  available_space : Int
  occupancy_rate : Rat
  status : String
  contact : String
deriving DecidableEq

/-- The dictionary built per shelter by `get_shelters` (src/app.py:98-113). -/
def shelterInfo (s : ShelterRec) : ShelterInfo :=
  ⟨s.name, s.hasName.headD s.name, headI s.capacity, headI s.currentOccupancy,
   headI s.capacity - headI s.currentOccupancy,
   occupancy_rate (headI s.capacity) (headI s.currentOccupancy),
   s.status.headD "Unknown", s.contactNumber.headD "N/A"⟩

/-- Embeds `get_shelters` (src/app.py:94-114). -/
def get_shelters (shelters : List ShelterRec) : List ShelterInfo :=
  shelters.map shelterInfo

/-- An owlready2 resource as read by `get_low_resources` (src/app.py): raw
identifier, display names, concrete class name, quantities. -/
structure ResourceRec where
  name : String
  hasName : List String
  className : String
  quantityAvailable : List Int
deriving DecidableEq

/-- One row of the `/resources/low` response (src/app.py:222-227). -/
structure LowResourceInfo where
  name : String
  type : String
  quantity : Int
  status : String
deriving DecidableEq

/-- The dictionary built for a low-stock resource (src/app.py:222-227). -/
def lowResInfo (r : ResourceRec) : LowResourceInfo :=
  ⟨r.hasName.headD r.name, r.className, headI r.quantityAvailable,
   if headI r.quantityAvailable < 500 then "Critical" else "Low"⟩

/-- Embeds `get_low_resources` (src/app.py:215-229): keep exactly the
resources with `quantity < 1000` (missing quantity defaults to 0). -/
def get_low_resources (resources : List ResourceRec) : List LowResourceInfo :=
  resources.filterMap (fun r =>
    if headI r.quantityAvailable < 1000 then some (lowResInfo r)
    else none)

/-- Class lookup on the loaded ontology, `getattr(onto, name, None)`. -/
def getOntoClass (classes : List ClassDecl) (n : String) : Option ClassDecl :=
  classes.find? (fun c => c.name == n)

/-- Embeds the class resolution of `add_disaster` (src/app.py:337-348).  With
`create_new_type` set and the type name unknown, the code runs
`types.new_class(disaster_type, (onto.Disaster,))`: the parent is hard-coded
to `Disaster`, and when that base is missing the constructor raises a plain
`TypeError` (caught by the endpoint's blanket `except` into a generic
failure), modelled here as a generic error string.  Otherwise the code runs
`getattr(onto, disaster_type, onto.Flood)` and instantiates the result —
owlready2's ontology attribute access returns `None` for a missing name
instead of raising `AttributeError`, so the `onto.Flood` default is never
taken: for an unknown type the lookup yields `None`, calling it raises a
plain `TypeError`, and the blanket `except` again returns a generic failure.
Returns the updated class list and the name of the class the new instance
will get. -/
def resolveDisasterClass (classes : List ClassDecl) (disaster_type : String)
    (create_new_type : Bool) : Except String (List ClassDecl × String) :=
  if create_new_type && (getOntoClass classes disaster_type).isNone then
    match getOntoClass classes "Disaster" with
    | none => .error "TypeError: cannot create class with missing base"
    | some _ => .ok (classes ++ [⟨disaster_type, ["Disaster"]⟩], disaster_type)
  else
    match getOntoClass classes disaster_type with
    | some c => .ok (classes, c.name)
    | none => .error "TypeError: NoneType object is not callable"

/-- A concrete evaluation stub for witnesses: every query string fails. -/
def demoEvalq : String → Except String (List String × List (List (Option Value))) :=
  fun _ => .error "boom"

/-- Concrete store for the round-trip witness: two classes, one flood with a
name and a severity. -/
def demoStore : Store :=
  ⟨[⟨"Disaster", []⟩, ⟨"Flood", ["Disaster"]⟩],
   [⟨"Flood_1", "Flood",
     [("hasName", [Value.lit "May Flood"]), ("severityLevel", [Value.lit "High"])]⟩]⟩

/-- Concrete store for the dangling-reference witness: a volunteer assigned to
shelter `Sh1`, which also exists (until deleted). -/
def demoVolStore : Store :=
  ⟨[],
   [⟨"Sh1", "Shelter", [("hasName", [Value.lit "Kandy Central College"])]⟩,
    ⟨"V1", "Volunteer",
     [("hasName", [Value.lit "Nimal"]), ("assignedTo", [Value.ref "Sh1"]),
      ("skillLevel", [Value.lit "Advanced"])]⟩]⟩

/-- Concrete store for the group-by witness: districts Kandy and Colombo,
three disasters occurring in Kandy and one in Colombo. -/
def kandyStore : Store :=
  ⟨[],
   [⟨"KandyDistrict", "District", [("hasName", [Value.lit "Kandy"])]⟩,
    ⟨"ColomboDistrict", "District", [("hasName", [Value.lit "Colombo"])]⟩,
    ⟨"F1", "Flood", [("occursIn", [Value.ref "KandyDistrict"])]⟩,
    ⟨"F2", "Flood", [("occursIn", [Value.ref "KandyDistrict"])]⟩,
    ⟨"L1", "Landslide", [("occursIn", [Value.ref "KandyDistrict"])]⟩,
    ⟨"F3", "Flood", [("occursIn", [Value.ref "ColomboDistrict"])]⟩]⟩

/-- Concrete shelter with capacity 200 and occupancy 150. -/
def demoShelterA : ShelterRec :=
  ⟨"Shelter_A", ["Shelter A"], [200], [150], ["Open"], ["011"]⟩

/-- Concrete shelter whose occupancy equals its capacity. -/
def demoShelterB : ShelterRec :=
  ⟨"Shelter_B", ["Shelter B"], [100], [100], ["Full"], []⟩

/-- Concrete shelter with no recorded capacity, occupancy, name or status. -/
def demoShelterEmpty : ShelterRec :=
  ⟨"Shelter_E", [], [], [], [], []⟩

/-- The resource set of the low-stock example: quantities 1500, 400, 999. -/
def demoResources : List ResourceRec :=
  [⟨"FoodSupply", ["FoodSupply"], "FoodResource", [1500]⟩,
   ⟨"MedicalKit", ["MedicalKit"], "MedicalResource", [400]⟩,
   ⟨"Blankets", ["Blankets"], "ShelterResource", [999]⟩]

/-- A loaded class list containing `Disaster` and `Flood`, plus a `Shelter`
class whose parent set differs from a disaster subtype's. -/
def demoClasses : List ClassDecl :=
  [⟨"Disaster", []⟩, ⟨"Flood", ["Disaster"]⟩, ⟨"Shelter", ["Location"]⟩]

/-- C1: every query attempt yields a well-formed response: either success with
a count and no error, or failure with an error message and an empty result
list. -/
theorem run_query_wellformed
    (evalq : String → Except String (List String × List (List (Option Value))))
    (q : String) :
    ((run_query evalq q).success = true ∧ (run_query evalq q).error = none
      ∧ ∃ n, (run_query evalq q).count = some n)
    ∨ ((run_query evalq q).success = false ∧ (run_query evalq q).results = []
      ∧ ∃ msg, (run_query evalq q).error = some msg) := by
  unfold run_query
  cases evalq q with
  | ok p => left; exact ⟨rfl, rfl, _, rfl⟩
  | error e => right; exact ⟨rfl, rfl, e, rfl⟩

/-- C9: an identifier outside the predefined-query catalog yields the fixed
`"Query not found"` failure with an empty result list; an identifier in the
catalog evaluates exactly the stored query string through `run_query`. -/
theorem run_predefined_query_spec
    (evalq : String → Except String (List String × List (List (Option Value))))
    (query_id : String) :
    (PREDEFINED_QUERIES.find? (fun p => p.1 == query_id) = none →
      run_predefined_query evalq query_id =
        ⟨false, [], none, some "Query not found"⟩)
    ∧ (∀ entry, PREDEFINED_QUERIES.find? (fun p => p.1 == query_id) = some entry →
        run_predefined_query evalq query_id = run_query evalq entry.2.query) := by
  constructor
  · intro h
    unfold run_predefined_query
    rw [h]
  · intro entry h
    unfold run_predefined_query
    rw [h]

set_option maxRecDepth 4096 in
/-- Witness for C9 at the unknown id `"no_such_query"` and the catalog id
`"critical_resources"`. -/
theorem run_predefined_query_spec_witness :
    (PREDEFINED_QUERIES.find? (fun p => p.1 == "no_such_query") = none
      ∧ run_predefined_query demoEvalq "no_such_query" =
          ⟨false, [], none, some "Query not found"⟩)
    ∧ (PREDEFINED_QUERIES.find? (fun p => p.1 == "critical_resources") =
          some ("critical_resources", criticalResourcesEntry)
      ∧ run_predefined_query demoEvalq "critical_resources" =
          run_query demoEvalq criticalResourcesEntry.query) :=
  ⟨⟨by decide, (run_predefined_query_spec demoEvalq "no_such_query").1 (by decide)⟩,
   ⟨by decide, (run_predefined_query_spec demoEvalq "critical_resources").2
      ("critical_resources", criticalResourcesEntry) (by decide)⟩⟩

/-- C6: the available-shelters endpoint returns exactly the shelters whose
capacity strictly exceeds their occupancy, and reports
`available_space = capacity - occupancy`. -/
theorem get_available_shelters_spec (shelters : List ShelterRec) :
    (∀ info, info ∈ get_available_shelters shelters ↔
        ∃ s ∈ shelters, headI s.capacity > headI s.currentOccupancy ∧ info = availInfo s)
    ∧ ∀ s : ShelterRec,
        (availInfo s).available_space = headI s.capacity - headI s.currentOccupancy := by
  constructor
  · intro info
    simp only [get_available_shelters, List.mem_filterMap]
    constructor
    · rintro ⟨s, hs, hf⟩
      by_cases h : headI s.capacity > headI s.currentOccupancy
      · rw [if_pos h] at hf
        exact ⟨s, hs, h, (Option.some.injEq _ _ ▸ hf).symm⟩
      · rw [if_neg h] at hf
        exact absurd hf (by simp)
    · rintro ⟨s, hs, h, rfl⟩
      exact ⟨s, hs, if_pos h⟩
  · intro s
    rfl

/-- Witness for C6: a 200/150 shelter is included with `available = 50`, and
a full 100/100 shelter is excluded. -/
theorem get_available_shelters_spec_witness :
    (availInfo demoShelterA ∈ get_available_shelters [demoShelterA, demoShelterB]
      ∧ (availInfo demoShelterA).available_space = 50)
    ∧ get_available_shelters [demoShelterB] = [] :=
  ⟨⟨((get_available_shelters_spec [demoShelterA, demoShelterB]).1
       (availInfo demoShelterA)).mpr ⟨demoShelterA, by decide, by decide, rfl⟩,
    by decide⟩,
   by decide⟩

/-- C7: the low-stock endpoint returns exactly the resources whose quantity is
strictly below 1000; over quantities 1500, 400, 999 it returns exactly
`MedicalKit` and `Blankets`. -/
theorem get_low_resources_spec (resources : List ResourceRec) :
    (∀ info, info ∈ get_low_resources resources ↔
        ∃ r ∈ resources, headI r.quantityAvailable < 1000 ∧ info = lowResInfo r)
    ∧ (get_low_resources demoResources).map LowResourceInfo.name
        = ["MedicalKit", "Blankets"] := by
  constructor
  · intro info
    simp only [get_low_resources, List.mem_filterMap]
    constructor
    · rintro ⟨r, hr, hf⟩
      by_cases h : headI r.quantityAvailable < 1000
      · rw [if_pos h] at hf
        exact ⟨r, hr, h, (Option.some.injEq _ _ ▸ hf).symm⟩
      · rw [if_neg h] at hf
        exact absurd hf (by simp)
    · rintro ⟨r, hr, h, rfl⟩
      exact ⟨r, hr, if_pos h⟩
  · decide

/-- Witness for C7: `MedicalKit` (400) is a member of the low-stock response
over the example resource set. -/
theorem get_low_resources_spec_witness :
    lowResInfo ⟨"MedicalKit", ["MedicalKit"], "MedicalResource", [400]⟩
      ∈ get_low_resources demoResources :=
  ((get_low_resources_spec demoResources).1
      (lowResInfo ⟨"MedicalKit", ["MedicalKit"], "MedicalResource", [400]⟩)).mpr
    ⟨⟨"MedicalKit", ["MedicalKit"], "MedicalResource", [400]⟩, by decide, by decide, rfl⟩

/-- C10: the shelter read operations default a missing capacity or occupancy
to 0, and the occupancy rate is 0 whenever the capacity is not positive, so
the division `occupancy / capacity` is only taken under the `capacity > 0`
guard (a nonzero reported rate forces a positive capacity). -/
theorem shelter_zero_capacity_safe (s : ShelterRec) :
    (s.capacity = [] → (shelterInfo s).capacity = 0)
    ∧ (s.currentOccupancy = [] → (shelterInfo s).current_occupancy = 0)
    ∧ ((shelterInfo s).capacity = 0 → (shelterInfo s).occupancy_rate = 0)
    ∧ (∀ cap occ : Int, cap ≤ 0 → occupancy_rate cap occ = 0)
    ∧ (∀ cap occ : Int, occupancy_rate cap occ ≠ 0 → 0 < cap) := by
  refine ⟨fun h => ?_, fun h => ?_, fun h => ?_, fun cap occ h => ?_, fun cap occ h => ?_⟩
  · simp [shelterInfo, headI, h]
  · simp [shelterInfo, headI, h]
  · have : headI s.capacity = 0 := h
    simp [shelterInfo, occupancy_rate, this]
  · simp [occupancy_rate, not_lt.mpr h]
  · by_contra hcap
    exact h (by unfold occupancy_rate; rw [if_neg hcap])

/-- Witness for C10 at a shelter with no recorded capacity or occupancy, and
at capacity 0 with occupancy 5. -/
theorem shelter_zero_capacity_safe_witness :
    ((shelterInfo demoShelterEmpty).capacity = 0
      ∧ (shelterInfo demoShelterEmpty).current_occupancy = 0
      ∧ (shelterInfo demoShelterEmpty).occupancy_rate = 0)
    ∧ occupancy_rate 0 5 = 0 :=
  ⟨⟨(shelter_zero_capacity_safe demoShelterEmpty).1 rfl,
    (shelter_zero_capacity_safe demoShelterEmpty).2.1 rfl,
    (shelter_zero_capacity_safe demoShelterEmpty).2.2.1
      ((shelter_zero_capacity_safe demoShelterEmpty).1 rfl)⟩,
   (shelter_zero_capacity_safe demoShelterEmpty).2.2.2.1 0 5 le_rfl⟩

/-- Counterexample for C3: with dynamic creation requested and the `Disaster`
base class missing, the resolution fails with the class constructor's generic
error, not `UnknownParentClass` — no typed parent validation exists. -/
theorem resolveDisasterClass_c3_counterexample :
    resolveDisasterClass [⟨"Flood", []⟩] "Volcano" true
      = .error "TypeError: cannot create class with missing base"
    ∧ resolveDisasterClass [⟨"Flood", []⟩] "Volcano" true
      ≠ .error "UnknownParentClass" :=
  ⟨rfl, fun h => absurd (Except.error.inj (rfl.trans h)) (by decide)⟩

/-- C3 (amended): for an unknown type with dynamic creation requested, the
new class's parent is hard-coded to `Disaster` and inserted without prior
validation when `Disaster` exists; when `Disaster` is missing the operation
fails with the constructor's generic error rather than a typed
`UnknownParentClass`; and with dynamic creation not requested an unknown
type also fails with a generic error (the `onto.Flood` getattr default is
dead code because owlready2 returns `None` for missing names, so the
instance is never silently defaulted to an existing class). -/
theorem resolveDisasterClass_amended (classes : List ClassDecl) (t : String)
    (hunk : getOntoClass classes t = none) :
    (∀ c, getOntoClass classes "Disaster" = some c →
        resolveDisasterClass classes t true = .ok (classes ++ [⟨t, ["Disaster"]⟩], t))
    ∧ (getOntoClass classes "Disaster" = none →
        resolveDisasterClass classes t true
          = .error "TypeError: cannot create class with missing base")
    ∧ resolveDisasterClass classes t false
        = .error "TypeError: NoneType object is not callable" := by
  refine ⟨fun c hc => ?_, fun hd => ?_, ?_⟩
  · simp [resolveDisasterClass, hunk, hc]
  · simp [resolveDisasterClass, hunk, hd]
  · simp [resolveDisasterClass, hunk]

/-- Witness for the amended C3 at the unknown type `"Volcano"` over the
loaded class list. -/
theorem resolveDisasterClass_amended_witness :
    getOntoClass demoClasses "Volcano" = none
    ∧ resolveDisasterClass demoClasses "Volcano" true
        = .ok (demoClasses ++ [⟨"Volcano", ["Disaster"]⟩], "Volcano")
    ∧ resolveDisasterClass demoClasses "Volcano" false
        = .error "TypeError: NoneType object is not callable" :=
  ⟨by decide,
   (resolveDisasterClass_amended demoClasses "Volcano" (by decide)).1
     ⟨"Disaster", []⟩ (by decide),
   (resolveDisasterClass_amended demoClasses "Volcano" (by decide)).2.2⟩

/-- Counterexample for C4: `Shelter` exists with parent set `["Location"]`,
different from the `["Disaster"]` parents a dynamically registered disaster
subtype gets, yet re-registering it succeeds as a silent no-op returning the
existing class — there is no `DuplicateClass` failure. -/
theorem resolveDisasterClass_c4_counterexample :
    getOntoClass demoClasses "Shelter" = some ⟨"Shelter", ["Location"]⟩
    ∧ (["Location"] : List String) ≠ ["Disaster"]
    ∧ resolveDisasterClass demoClasses "Shelter" true = .ok (demoClasses, "Shelter") :=
  ⟨by decide, by decide, rfl⟩

/-- C4 (amended): registering a class name that already exists is always an
idempotent no-op returning the existing class id, whether or not the parent
set matches — the code never fails with `DuplicateClass`. -/
theorem resolveDisasterClass_existing_noop (classes : List ClassDecl) (t : String)
    (c : ClassDecl) (h : getOntoClass classes t = some c) (b : Bool) :
    resolveDisasterClass classes t b = .ok (classes, t) := by
  have hc : c.name = t := by
    have hp := List.find?_some h
    simpa using hp
  unfold resolveDisasterClass
  rw [h]
  simp [hc]

/-- Witness for the amended C4 at the existing class `"Flood"`. -/
theorem resolveDisasterClass_existing_noop_witness :
    getOntoClass demoClasses "Flood" = some ⟨"Flood", ["Disaster"]⟩
    ∧ resolveDisasterClass demoClasses "Flood" true = .ok (demoClasses, "Flood") :=
  ⟨by decide,
   resolveDisasterClass_existing_noop demoClasses "Flood" ⟨"Flood", ["Disaster"]⟩
     (by decide) true⟩

/-- Membership in a stable insertion is membership in the inserted element or
the old list. -/
theorem mem_stableInsert (le : α → α → Bool) (a x : α) (l : List α) :
    x ∈ stableInsert le a l ↔ x = a ∨ x ∈ l := by
  induction l with
  | nil => simp [stableInsert]
  | cons b bs ih =>
    rw [stableInsert]
    by_cases h : le b a
    · simp only [if_pos h, List.mem_cons, ih]
      tauto
    · simp only [if_neg h, List.mem_cons]

/-- Sorting does not change membership. -/
theorem mem_stableSort (le : α → α → Bool) (x : α) (l : List α) :
    x ∈ stableSort le l ↔ x ∈ l := by
  induction l with
  | nil => simp [stableSort]
  | cons a rest ih =>
    simp [stableSort, mem_stableInsert, ih]

/-- Every OPTIONAL block contributes at least one binding to a base row. -/
theorem exists_mem_optBindings (vs : List Value) : ∃ b, b ∈ optBindings vs := by
  cases vs with
  | nil => exact ⟨none, by simp [optBindings]⟩
  | cons v rest => exact ⟨some v, by simp [optBindings]⟩

/-- Looking a deleted identifier up fails. -/
theorem lookupInst_deleteInstance_self (s : Store) (id : String) :
    lookupInst (deleteInstance s id) id = none := by
  rw [lookupInst, List.find?_eq_none]
  intro i hi
  rw [deleteInstance] at hi
  simp only [List.mem_filter, Bool.not_eq_true'] at hi
  simp [hi.2]

/-- C5: after deleting a shelter, the volunteer-assignment query still
evaluates (it is a total function) and a volunteer holding the dangling
reference keeps its row, with the OPTIONAL shelter-name binding simply left
unmatched and rendered `"N/A"`. -/
theorem deleted_shelter_query_tolerated (s : Store) (sid : String) (v : Instance)
    (hv : v ∈ (deleteInstance s sid).instances)
    (ht : v.declaredType = "Volunteer")
    (ha : Value.ref sid ∈ getProperty v "assignedTo") :
    ∃ r ∈ volunteersAssignments (deleteInstance s sid),
      r.volunteer = v.id ∧ r.shelter = formatValue (some (Value.ref sid))
        ∧ r.shelterName = "N/A" := by
  have hlook : lookupInst (deleteInstance s sid) sid = none :=
    lookupInst_deleteInstance_self s sid
  obtain ⟨nb, hnb⟩ := exists_mem_optBindings (getProperty v "hasName")
  obtain ⟨skb, hskb⟩ := exists_mem_optBindings (getProperty v "skillLevel")
  refine ⟨⟨v.id, formatValue nb, formatValue (some (Value.ref sid)), formatValue none,
           formatValue skb⟩,
          ?_, rfl, rfl, rfl⟩
  rw [volunteersAssignments, mem_stableSort]
  refine List.mem_flatMap.mpr ⟨v, ?_, ?_⟩
  · simp [List.mem_filter, hv, ht]
  · refine List.mem_flatMap.mpr ⟨Value.ref sid, ha, ?_⟩
    refine List.mem_flatMap.mpr ⟨nb, hnb, ?_⟩
    have hcand : shelterNameCandidates (deleteInstance s sid) (Value.ref sid) = [] := by
      simp [shelterNameCandidates, hlook]
    rw [hcand]
    refine List.mem_flatMap.mpr ⟨none, by simp [optBindings], ?_⟩
    exact List.mem_map.mpr ⟨skb, hskb, rfl⟩

/-- Witness for C5: deleting shelter `Sh1` from the demo store leaves the
assigned volunteer's row with an `"N/A"` shelter name. -/
theorem deleted_shelter_query_tolerated_witness :
    (⟨"V1", "Volunteer",
      [("hasName", [Value.lit "Nimal"]), ("assignedTo", [Value.ref "Sh1"]),
       ("skillLevel", [Value.lit "Advanced"])]⟩ : Instance)
        ∈ (deleteInstance demoVolStore "Sh1").instances
    ∧ ∃ r ∈ volunteersAssignments (deleteInstance demoVolStore "Sh1"),
        r.volunteer = "V1" ∧ r.shelter = formatValue (some (Value.ref "Sh1"))
          ∧ r.shelterName = "N/A" :=
  ⟨by decide,
   deleted_shelter_query_tolerated demoVolStore "Sh1"
     ⟨"V1", "Volunteer",
      [("hasName", [Value.lit "Nimal"]), ("assignedTo", [Value.ref "Sh1"]),
       ("skillLevel", [Value.lit "Advanced"])]⟩
     (by decide) rfl (by decide)⟩

/-- C8: over a store whose districts are Kandy and Colombo with three and one
occurring disasters respectively, the group-by-district count query returns
one row per district, `count 3` for Kandy and `count 1` for Colombo, with the
Kandy row first under the descending count order. -/
theorem districtDisasters_kandy_colombo (s : Store) (dk dc : Instance)
    (hD : s.instances.filter (fun i => i.declaredType == "District") = [dk, dc])
    (hkName : getProperty dk "hasName" = [Value.lit "Kandy"])
    (hcName : getProperty dc "hasName" = [Value.lit "Colombo"])
    (hk : (s.instances.filter (fun i =>
        (getProperty i "occursIn").contains (Value.ref dk.id))).length = 3)
    (hc : (s.instances.filter (fun i =>
        (getProperty i "occursIn").contains (Value.ref dc.id))).length = 1) :
    districtDisasters s = [⟨dk.id, "Kandy", 3⟩, ⟨dc.id, "Colombo", 1⟩] := by
  have hkS : firstValueStr (getProperty dk "hasName") = "Kandy" := by
    rw [hkName]; rfl
  have hcS : firstValueStr (getProperty dc "hasName") = "Colombo" := by
    rw [hcName]; rfl
  unfold districtDisasters
  rw [hD]
  simp only [List.map_cons, List.map_nil, hkS, hcS, hk, hc]
  simp [stableSort, stableInsert]

/-- Witness for C8 over the concrete Kandy/Colombo store. -/
theorem districtDisasters_kandy_colombo_witness :
    districtDisasters kandyStore
      = [⟨"KandyDistrict", "Kandy", 3⟩, ⟨"ColomboDistrict", "Colombo", 1⟩] :=
  districtDisasters_kandy_colombo kandyStore
    ⟨"KandyDistrict", "District", [("hasName", [Value.lit "Kandy"])]⟩
    ⟨"ColomboDistrict", "District", [("hasName", [Value.lit "Colombo"])]⟩
    (by decide) rfl rfl (by decide) (by decide)

/-- Replaying the class-declaration lines appends the classes in order. -/
theorem load_classLines (cs : List ClassDecl) (cs0 : List ClassDecl) (is0 : List Instance) :
    List.foldl loadLine ⟨cs0, is0⟩ (cs.map (fun c => DocLine.classDecl c.name c.parents))
      = ⟨cs0 ++ cs, is0⟩ := by
  induction cs generalizing cs0 with
  | nil => simp
  | cons c rest ih =>
    show List.foldl loadLine ⟨cs0 ++ [⟨c.name, c.parents⟩], is0⟩
        (rest.map (fun c => DocLine.classDecl c.name c.parents)) = ⟨cs0 ++ c :: rest, is0⟩
    rw [ih, List.append_assoc]
    rfl

/-- Replaying the instance-declaration lines appends the bare instances in
order. -/
theorem load_instLines (l : List Instance) (cs0 : List ClassDecl) (is0 : List Instance) :
    List.foldl loadLine ⟨cs0, is0⟩ (l.map (fun i => DocLine.instDecl i.id i.declaredType))
      = ⟨cs0, is0 ++ l.map stripInst⟩ := by
  induction l generalizing is0 with
  | nil => simp
  | cons i rest ih =>
    show List.foldl loadLine ⟨cs0, is0 ++ [⟨i.id, i.declaredType, []⟩]⟩
        (rest.map (fun i => DocLine.instDecl i.id i.declaredType))
      = ⟨cs0, is0 ++ (stripInst i :: rest.map stripInst)⟩
    rw [ih, List.append_assoc]
    rfl

/-- Updating an identifier that does not occur in the prefix reaches the
matching instance. -/
theorem updateInstance_append (pre : List Instance) (i : Instance) (suf : List Instance)
    (idv : String) (f : Instance → Instance) (hid : i.id = idv)
    (hpre : idv ∉ pre.map Instance.id) :
    updateInstance (pre ++ i :: suf) idv f = pre ++ f i :: suf := by
  induction pre with
  | nil => simp [updateInstance, hid]
  | cons a rest ih =>
    simp only [List.map_cons, List.mem_cons, not_or] at hpre
    have ha : ¬(a.id = idv) := fun h => hpre.1 h.symm
    show (if a.id = idv then f a :: (rest ++ i :: suf)
          else a :: updateInstance (rest ++ i :: suf) idv f) = a :: (rest ++ f i :: suf)
    rw [if_neg ha, ih hpre.2]

/-- Appending a value for a fresh property name creates its entry at the
end. -/
theorem appendPropList_notmem (props : List (String × List Value)) (p : String) (v : Value)
    (h : p ∉ props.map Prod.fst) :
    appendPropList props p v = props ++ [(p, [v])] := by
  induction props with
  | nil => rfl
  | cons pv rest ih =>
    obtain ⟨q, vs⟩ := pv
    simp only [List.map_cons, List.mem_cons, not_or] at h
    show appendPropList ((q, vs) :: rest) p v = (q, vs) :: (rest ++ [(p, [v])])
    simp only [appendPropList]
    rw [if_neg (fun hh : q = p => h.1 hh.symm), ih h.2]

/-- Appending a value for the last entry's name extends that entry. -/
theorem appendPropList_append (done : List (String × List Value)) (p : String)
    (vs : List Value) (v : Value) (h : p ∉ done.map Prod.fst) :
    appendPropList (done ++ [(p, vs)]) p v = done ++ [(p, vs ++ [v])] := by
  induction done with
  | nil => simp [appendPropList]
  | cons pv rest ih =>
    obtain ⟨q, ws⟩ := pv
    simp only [List.map_cons, List.mem_cons, not_or] at h
    show appendPropList ((q, ws) :: (rest ++ [(p, vs)])) p v
        = (q, ws) :: (rest ++ [(p, vs ++ [v])])
    simp only [appendPropList]
    rw [if_neg (fun hh : q = p => h.1 hh.symm), ih h.2]

/-- Replaying further value triples of the instance's current last property
extends its value sequence in order. -/
theorem replay_values (vs : List Value) :
    ∀ (cs : List ClassDecl) (pre suf : List Instance) (idv t : String)
      (done : List (String × List Value)) (p : String) (acc : List Value),
    idv ∉ pre.map Instance.id → p ∉ done.map Prod.fst →
    List.foldl loadLine ⟨cs, pre ++ ⟨idv, t, done ++ [(p, acc)]⟩ :: suf⟩
        (vs.map (fun v => DocLine.propTriple idv p v))
      = ⟨cs, pre ++ ⟨idv, t, done ++ [(p, acc ++ vs)]⟩ :: suf⟩ := by
  induction vs with
  | nil =>
    intro cs pre suf idv t done p acc hpre hp
    simp
  | cons v rest ih =>
    intro cs pre suf idv t done p acc hpre hp
    have hstep : loadLine ⟨cs, pre ++ ⟨idv, t, done ++ [(p, acc)]⟩ :: suf⟩
        (DocLine.propTriple idv p v)
        = ⟨cs, pre ++ ⟨idv, t, done ++ [(p, acc ++ [v])]⟩ :: suf⟩ := by
      simp only [loadLine]
      rw [updateInstance_append pre ⟨idv, t, done ++ [(p, acc)]⟩ suf idv _ rfl hpre]
      show (⟨cs, pre ++ ⟨idv, t, appendPropList (done ++ [(p, acc)]) p v⟩ :: suf⟩ : Store) = _
      rw [appendPropList_append done p acc v hp]
    show List.foldl loadLine
        (loadLine ⟨cs, pre ++ ⟨idv, t, done ++ [(p, acc)]⟩ :: suf⟩ (DocLine.propTriple idv p v))
        (rest.map (fun v => DocLine.propTriple idv p v)) = _
    rw [hstep, ih cs pre suf idv t done p (acc ++ [v]) hpre hp, List.append_assoc]
    rfl

/-- Replaying all value triples of one fresh property appends its full
entry. -/
theorem replay_prop (cs : List ClassDecl) (pre suf : List Instance) (idv t : String)
    (done : List (String × List Value)) (p : String) (vs : List Value)
    (hpre : idv ∉ pre.map Instance.id) (hp : p ∉ done.map Prod.fst) (hvs : vs ≠ []) :
    List.foldl loadLine ⟨cs, pre ++ ⟨idv, t, done⟩ :: suf⟩
        (vs.map (fun v => DocLine.propTriple idv p v))
      = ⟨cs, pre ++ ⟨idv, t, done ++ [(p, vs)]⟩ :: suf⟩ := by
  cases vs with
  | nil => exact absurd rfl hvs
  | cons v rest =>
    have hstep : loadLine ⟨cs, pre ++ ⟨idv, t, done⟩ :: suf⟩ (DocLine.propTriple idv p v)
        = ⟨cs, pre ++ ⟨idv, t, done ++ [(p, [v])]⟩ :: suf⟩ := by
      simp only [loadLine]
      rw [updateInstance_append pre ⟨idv, t, done⟩ suf idv _ rfl hpre]
      show (⟨cs, pre ++ ⟨idv, t, appendPropList done p v⟩ :: suf⟩ : Store) = _
      rw [appendPropList_notmem done p v hp]
    show List.foldl loadLine
        (loadLine ⟨cs, pre ++ ⟨idv, t, done⟩ :: suf⟩ (DocLine.propTriple idv p v))
        (rest.map (fun v => DocLine.propTriple idv p v)) = _
    rw [hstep]
    exact replay_values rest cs pre suf idv t done p [v] hpre hp

/-- Replaying all property triples of one instance restores its property
list, property by property. -/
theorem replay_props (ps : List (String × List Value)) :
    ∀ (cs : List ClassDecl) (pre suf : List Instance) (idv t : String)
      (done : List (String × List Value)),
    idv ∉ pre.map Instance.id →
    ((done ++ ps).map Prod.fst).Nodup →
    (∀ pv ∈ ps, pv.2 ≠ []) →
    List.foldl loadLine ⟨cs, pre ++ ⟨idv, t, done⟩ :: suf⟩
        (ps.flatMap (fun pv => pv.2.map (fun v => DocLine.propTriple idv pv.1 v)))
      = ⟨cs, pre ++ ⟨idv, t, done ++ ps⟩ :: suf⟩ := by
  induction ps with
  | nil =>
    intro cs pre suf idv t done hpre hnd hne
    simp
  | cons pv rest ih =>
    intro cs pre suf idv t done hpre hnd hne
    obtain ⟨p, vs⟩ := pv
    rw [List.flatMap_cons, List.foldl_append]
    have hp : p ∉ done.map Prod.fst := by
      intro hmem
      rw [List.map_append] at hnd
      exact (List.nodup_append.mp hnd).2.2 hmem (by simp)
    rw [replay_prop cs pre suf idv t done p vs hpre hp (hne (p, vs) (List.mem_cons_self _ _))]
    have hnd2 : ((done ++ [(p, vs)] ++ rest).map Prod.fst).Nodup := by
      rw [List.append_assoc]
      exact hnd
    rw [ih cs pre suf idv t (done ++ [(p, vs)]) hpre hnd2
        (fun q hq => hne q (List.mem_cons_of_mem _ hq)),
      List.append_assoc]
    rfl

/-- Replaying the property triples of every instance over the bare instance
list restores all instances. -/
theorem replay_instances (l : List Instance) :
    ∀ (cs : List ClassDecl) (pre : List Instance),
    ((pre ++ l).map Instance.id).Nodup →
    (∀ i ∈ l, PropsWF i.props) →
    List.foldl loadLine ⟨cs, pre ++ l.map stripInst⟩ (l.flatMap instTriples)
      = ⟨cs, pre ++ l⟩ := by
  induction l with
  | nil =>
    intro cs pre hnd hwf
    simp
  | cons i rest ih =>
    intro cs pre hnd hwf
    rw [List.flatMap_cons, List.foldl_append]
    have hpre : i.id ∉ pre.map Instance.id := by
      intro hmem
      rw [List.map_append] at hnd
      exact (List.nodup_append.mp hnd).2.2 hmem (by simp)
    have hwfi := hwf i (List.mem_cons_self _ _)
    have h1 := replay_props i.props cs pre (rest.map stripInst) i.id i.declaredType []
        hpre (by simpa using hwfi.1) hwfi.2
    show List.foldl loadLine
        (List.foldl loadLine ⟨cs, pre ++ ⟨i.id, i.declaredType, []⟩ :: rest.map stripInst⟩
          (i.props.flatMap (fun pv => pv.2.map (fun v => DocLine.propTriple i.id pv.1 v))))
        (rest.flatMap instTriples) = ⟨cs, pre ++ i :: rest⟩
    rw [h1]
    have hconv : (⟨cs, pre ++ ⟨i.id, i.declaredType, [] ++ i.props⟩ :: rest.map stripInst⟩ : Store)
        = ⟨cs, (pre ++ [i]) ++ rest.map stripInst⟩ := by
      rw [List.append_cons]
      rfl
    rw [hconv]
    have hnd2 : (((pre ++ [i]) ++ rest).map Instance.id).Nodup := by
      rw [List.append_assoc]
      exact hnd
    rw [ih cs (pre ++ [i]) hnd2 (fun j hj => hwf j (List.mem_cons_of_mem _ hj)),
      List.append_cons pre i rest]

/-- Loading the saved document of a well-formed store restores it exactly. -/
theorem storeWF_load_save (s : Store) (h : StoreWF s) : load (save s) = s := by
  obtain ⟨cs, is⟩ := s
  obtain ⟨hids, hprops⟩ := h
  unfold load save
  rw [List.foldl_append, List.foldl_append, load_classLines, load_instLines]
  have h1 := replay_instances is ([] ++ cs) [] (by simpa using hids) hprops
  simpa using h1

/-- Registering a class never touches the instances. -/
theorem registerClass_ok_instances {s s' : Store} {n : String} {ps : List String}
    (h : registerClass s n ps = .ok s') : s'.instances = s.instances := by
  unfold registerClass at h
  split at h
  · split at h
    · simp only [Except.ok.injEq] at h
      rw [← h]
    · simp at h
  · split at h
    · simp only [Except.ok.injEq] at h
      rw [← h]
    · simp at h

/-- A successful instance creation appends a fresh, property-free instance
whose identifier was absent. -/
theorem createInstance_ok {s s' : Store} {t idv : String}
    (h : createInstance s t idv = .ok s') :
    s' = { s with instances := s.instances ++ [⟨idv, t, []⟩] }
      ∧ idv ∉ s.instances.map Instance.id := by
  unfold createInstance at h
  by_cases hc : s.instances.any (fun i => i.id == idv)
  · rw [if_pos hc] at h
    simp at h
  · rw [if_neg hc] at h
    simp only [Except.ok.injEq] at h
    refine ⟨h.symm, fun hmem => hc ?_⟩
    rw [List.any_eq_true]
    obtain ⟨i, hi, hidq⟩ := List.mem_map.mp hmem
    exact ⟨i, hi, by simp [hidq]⟩

/-- Replacing at a matching head entry rewrites it in place. -/
theorem setPropList_cons_self (q : String) (ws vs : List Value)
    (rest : List (String × List Value)) :
    setPropList ((q, ws) :: rest) q vs = (q, vs) :: rest := by
  simp [setPropList]

/-- Replacing at a non-matching head entry keeps it and recurses. -/
theorem setPropList_cons_ne (q p : String) (ws vs : List Value)
    (rest : List (String × List Value)) (h : ¬q = p) :
    setPropList ((q, ws) :: rest) p vs = (q, ws) :: setPropList rest p vs := by
  simp [setPropList, h]

/-- Appending at a matching head entry extends its values. -/
theorem appendPropList_cons_self (q : String) (ws : List Value) (v : Value)
    (rest : List (String × List Value)) :
    appendPropList ((q, ws) :: rest) q v = (q, ws ++ [v]) :: rest := by
  simp [appendPropList]

/-- Appending at a non-matching head entry keeps it and recurses. -/
theorem appendPropList_cons_ne (q p : String) (ws : List Value) (v : Value)
    (rest : List (String × List Value)) (h : ¬q = p) :
    appendPropList ((q, ws) :: rest) p v = (q, ws) :: appendPropList rest p v := by
  simp [appendPropList, h]

/-- The property names after a replacement are the old names plus possibly the
set name. -/
theorem mem_map_fst_setPropList (props : List (String × List Value)) (p x : String)
    (vs : List Value) :
    x ∈ (setPropList props p vs).map Prod.fst ↔ x ∈ props.map Prod.fst ∨ x = p := by
  induction props with
  | nil => simp [setPropList]
  | cons pv rest ih =>
    obtain ⟨q, ws⟩ := pv
    by_cases hq : q = p
    · subst hq
      rw [setPropList_cons_self]
      simp only [List.map_cons, List.mem_cons]
      tauto
    · rw [setPropList_cons_ne q p ws vs rest hq]
      simp only [List.map_cons, List.mem_cons, ih]
      tauto

/-- Replacement keeps the property names duplicate-free. -/
theorem nodup_setPropList (props : List (String × List Value)) (p : String)
    (vs : List Value) (h : (props.map Prod.fst).Nodup) :
    ((setPropList props p vs).map Prod.fst).Nodup := by
  induction props with
  | nil => simp [setPropList]
  | cons pv rest ih =>
    obtain ⟨q, ws⟩ := pv
    simp only [List.map_cons, List.nodup_cons] at h
    by_cases hq : q = p
    · subst hq
      rw [setPropList_cons_self]
      simp only [List.map_cons, List.nodup_cons]
      exact h
    · rw [setPropList_cons_ne q p ws vs rest hq]
      simp only [List.map_cons, List.nodup_cons]
      refine ⟨fun hmem => ?_, ih h.2⟩
      rcases (mem_map_fst_setPropList rest p q vs).mp hmem with h1 | h1
      · exact h.1 h1
      · exact hq h1

/-- Replacement with a nonempty sequence keeps every value sequence
nonempty. -/
theorem setPropList_nonempty (props : List (String × List Value)) (p : String)
    (vs : List Value) (hall : ∀ pv ∈ props, pv.2 ≠ []) (hvs : vs ≠ []) :
    ∀ pv ∈ setPropList props p vs, pv.2 ≠ [] := by
  induction props with
  | nil =>
    intro pv hpv
    simp only [setPropList, List.mem_singleton] at hpv
    rw [hpv]
    exact hvs
  | cons qw rest ih =>
    obtain ⟨q, ws⟩ := qw
    intro pv hpv
    by_cases hq : q = p
    · subst hq
      rw [setPropList_cons_self] at hpv
      rcases List.mem_cons.mp hpv with h | h
      · rw [h]
        exact hvs
      · exact hall pv (List.mem_cons_of_mem _ h)
    · rw [setPropList_cons_ne q p ws vs rest hq] at hpv
      rcases List.mem_cons.mp hpv with h | h
      · rw [h]
        exact hall (q, ws) (List.mem_cons_self _ _)
      · exact ih (fun x hx => hall x (List.mem_cons_of_mem _ hx)) pv h

/-- The property names after an append are the old names plus possibly the
appended name. -/
theorem mem_map_fst_appendPropList (props : List (String × List Value)) (p x : String)
    (v : Value) :
    x ∈ (appendPropList props p v).map Prod.fst ↔ x ∈ props.map Prod.fst ∨ x = p := by
  induction props with
  | nil => simp [appendPropList]
  | cons pv rest ih =>
    obtain ⟨q, ws⟩ := pv
    by_cases hq : q = p
    · subst hq
      rw [appendPropList_cons_self]
      simp only [List.map_cons, List.mem_cons]
      tauto
    · rw [appendPropList_cons_ne q p ws v rest hq]
      simp only [List.map_cons, List.mem_cons, ih]
      tauto

/-- Appending keeps the property names duplicate-free. -/
theorem nodup_appendPropList (props : List (String × List Value)) (p : String)
    (v : Value) (h : (props.map Prod.fst).Nodup) :
    ((appendPropList props p v).map Prod.fst).Nodup := by
  induction props with
  | nil => simp [appendPropList]
  | cons pv rest ih =>
    obtain ⟨q, ws⟩ := pv
    simp only [List.map_cons, List.nodup_cons] at h
    by_cases hq : q = p
    · subst hq
      rw [appendPropList_cons_self]
      simp only [List.map_cons, List.nodup_cons]
      exact h
    · rw [appendPropList_cons_ne q p ws v rest hq]
      simp only [List.map_cons, List.nodup_cons]
      refine ⟨fun hmem => ?_, ih h.2⟩
      rcases (mem_map_fst_appendPropList rest p q v).mp hmem with h1 | h1
      · exact h.1 h1
      · exact hq h1

/-- Appending keeps every value sequence nonempty. -/
theorem appendPropList_nonempty (props : List (String × List Value)) (p : String)
    (v : Value) (hall : ∀ pv ∈ props, pv.2 ≠ []) :
    ∀ pv ∈ appendPropList props p v, pv.2 ≠ [] := by
  induction props with
  | nil =>
    intro pv hpv
    simp only [appendPropList, List.mem_singleton] at hpv
    rw [hpv]
    simp
  | cons qw rest ih =>
    obtain ⟨q, ws⟩ := qw
    intro pv hpv
    by_cases hq : q = p
    · subst hq
      rw [appendPropList_cons_self] at hpv
      rcases List.mem_cons.mp hpv with h | h
      · rw [h]
        simp
      · exact hall pv (List.mem_cons_of_mem _ h)
    · rw [appendPropList_cons_ne q p ws v rest hq] at hpv
      rcases List.mem_cons.mp hpv with h | h
      · rw [h]
        exact hall (q, ws) (List.mem_cons_self _ _)
      · exact ih (fun x hx => hall x (List.mem_cons_of_mem _ hx)) pv h

/-- A full property replacement preserves property-list well-formedness. -/
theorem propsWF_set (props : List (String × List Value)) (p : String) (vs : List Value)
    (h : PropsWF props) :
    PropsWF (if vs.isEmpty then removePropList props p else setPropList props p vs) := by
  by_cases hv : vs.isEmpty
  · rw [if_pos hv]
    refine ⟨h.1.sublist ((List.filter_sublist _).map _), fun pv hpv => ?_⟩
    exact h.2 pv (List.mem_of_mem_filter hpv)
  · rw [if_neg hv]
    exact ⟨nodup_setPropList _ _ _ h.1,
      setPropList_nonempty _ _ _ h.2 (by simpa using hv)⟩

/-- A property append preserves property-list well-formedness. -/
theorem propsWF_append (props : List (String × List Value)) (p : String) (v : Value)
    (h : PropsWF props) : PropsWF (appendPropList props p v) :=
  ⟨nodup_appendPropList _ _ _ h.1, appendPropList_nonempty _ _ _ h.2⟩

/-- An identifier-preserving rewrite keeps the identifier sequence. -/
theorem updateInstance_map_id (l : List Instance) (idv : String) (f : Instance → Instance)
    (hf : ∀ i, (f i).id = i.id) :
    (updateInstance l idv f).map Instance.id = l.map Instance.id := by
  induction l with
  | nil => rfl
  | cons a rest ih =>
    by_cases h : a.id = idv
    · simp [updateInstance, h, hf]
    · simp [updateInstance, h, ih]

/-- Every instance after a rewrite is an old instance or a rewritten old
instance. -/
theorem updateInstance_mem (l : List Instance) (idv : String) (f : Instance → Instance)
    (j : Instance) (hj : j ∈ updateInstance l idv f) : j ∈ l ∨ ∃ i ∈ l, j = f i := by
  induction l with
  | nil => simp [updateInstance] at hj
  | cons a rest ih =>
    by_cases h : a.id = idv
    · simp only [updateInstance, if_pos h, List.mem_cons] at hj
      rcases hj with h1 | h1
      · exact Or.inr ⟨a, List.mem_cons_self _ _, h1⟩
      · exact Or.inl (List.mem_cons_of_mem _ h1)
    · simp only [updateInstance, if_neg h, List.mem_cons] at hj
      rcases hj with h1 | h1
      · exact Or.inl (by rw [h1]; exact List.mem_cons_self _ _)
      · rcases ih h1 with h2 | h2
        · exact Or.inl (List.mem_cons_of_mem _ h2)
        · obtain ⟨i, hi, he⟩ := h2
          exact Or.inr ⟨i, List.mem_cons_of_mem _ hi, he⟩

/-- Class registration preserves store well-formedness. -/
theorem storeWF_registerClass {s s' : Store} {n : String} {ps : List String}
    (hw : StoreWF s) (h : registerClass s n ps = .ok s') : StoreWF s' := by
  have he := registerClass_ok_instances h
  obtain ⟨hids, hprops⟩ := hw
  exact ⟨by rw [he]; exact hids, by rw [he]; exact hprops⟩

/-- Instance creation preserves store well-formedness. -/
theorem storeWF_createInstance {s s' : Store} {t idv : String}
    (hw : StoreWF s) (h : createInstance s t idv = .ok s') : StoreWF s' := by
  obtain ⟨heq, hnot⟩ := createInstance_ok h
  subst heq
  obtain ⟨hids, hprops⟩ := hw
  constructor
  · show ((s.instances ++ [(⟨idv, t, []⟩ : Instance)]).map Instance.id).Nodup
    rw [List.map_append, List.nodup_append]
    refine ⟨hids, by simp, fun a ha hb => ?_⟩
    simp only [List.map_cons, List.map_nil, List.mem_singleton] at hb
    rw [hb] at ha
    exact hnot ha
  · intro i hi
    have hi' : i ∈ s.instances ++ [(⟨idv, t, []⟩ : Instance)] := hi
    rcases List.mem_append.mp hi' with h1 | h1
    · exact hprops i h1
    · simp only [List.mem_singleton] at h1
      rw [h1]
      exact And.intro (by simp) (by simp)

/-- Property replacement preserves store well-formedness. -/
theorem storeWF_setProperty {s : Store} (idv p : String) (vs : List Value)
    (hw : StoreWF s) : StoreWF (setProperty s idv p vs) := by
  obtain ⟨hids, hprops⟩ := hw
  constructor
  · show ((updateInstance s.instances idv
        (fun i => { i with props := if vs.isEmpty then removePropList i.props p
                                    else setPropList i.props p vs })).map Instance.id).Nodup
    rw [updateInstance_map_id s.instances idv
        (fun i => { i with props := if vs.isEmpty then removePropList i.props p
                                    else setPropList i.props p vs })
        (fun i => rfl)]
    exact hids
  · intro i hi
    have hi' : i ∈ updateInstance s.instances idv
        (fun i => { i with props := if vs.isEmpty then removePropList i.props p
                                    else setPropList i.props p vs }) := hi
    rcases updateInstance_mem _ _ _ _ hi' with h1 | h1
    · exact hprops i h1
    · obtain ⟨j, hj, he⟩ := h1
      rw [he]
      exact propsWF_set j.props p vs (hprops j hj)

/-- Property append preserves store well-formedness. -/
theorem storeWF_appendProperty {s : Store} (idv p : String) (v : Value)
    (hw : StoreWF s) : StoreWF (appendProperty s idv p v) := by
  obtain ⟨hids, hprops⟩ := hw
  constructor
  · show ((updateInstance s.instances idv
        (fun i => { i with props := appendPropList i.props p v })).map Instance.id).Nodup
    rw [updateInstance_map_id s.instances idv
        (fun i => { i with props := appendPropList i.props p v }) (fun i => rfl)]
    exact hids
  · intro i hi
    have hi' : i ∈ updateInstance s.instances idv
        (fun i => { i with props := appendPropList i.props p v }) := hi
    rcases updateInstance_mem _ _ _ _ hi' with h1 | h1
    · exact hprops i h1
    · obtain ⟨j, hj, he⟩ := h1
      rw [he]
      exact propsWF_append j.props p v (hprops j hj)

/-- Instance deletion preserves store well-formedness. -/
theorem storeWF_deleteInstance {s : Store} (idv : String)
    (hw : StoreWF s) : StoreWF (deleteInstance s idv) := by
  obtain ⟨hids, hprops⟩ := hw
  constructor
  · show (((s.instances.filter _)).map Instance.id).Nodup
    exact hids.sublist ((List.filter_sublist _).map _)
  · intro i hi
    exact hprops i (List.mem_of_mem_filter hi)

/-- Every store reachable through the mutation boundary is well-formed. -/
theorem built_storeWF {s : Store} (h : Built s) : StoreWF s := by
  induction h with
  | empty => exact And.intro (by simp) (by simp)
  | regClass _ he ih => exact storeWF_registerClass ih he
  | createInst _ he ih => exact storeWF_createInstance ih he
  | setProp _ ih => exact storeWF_setProperty _ _ _ ih
  | appendProp _ ih => exact storeWF_appendProperty _ _ _ ih
  | deleteInst _ ih => exact storeWF_deleteInstance _ ih

/-- C2: for every store built through the mutation boundary, loading the
saved document yields a structurally equal store — the same classes with the
same parent lists, the same instances with the same declared type, and the
same property value sequences in the same order. -/
theorem load_save_roundtrip (s : Store) (h : Built s) : load (save s) = s :=
  storeWF_load_save s (built_storeWF h)

/-- The demo store is reachable through the mutation boundary. -/
theorem demoStore_built : Built demoStore := by
  have h0 : Built ⟨[], []⟩ := Built.empty
  have e1 : registerClass ⟨[], []⟩ "Disaster" [] = .ok ⟨[⟨"Disaster", []⟩], []⟩ := rfl
  have h1 := Built.regClass h0 e1
  have e2 : registerClass ⟨[⟨"Disaster", []⟩], []⟩ "Flood" ["Disaster"]
      = .ok ⟨[⟨"Disaster", []⟩, ⟨"Flood", ["Disaster"]⟩], []⟩ := rfl
  have h2 := Built.regClass h1 e2
  have e3 : createInstance ⟨[⟨"Disaster", []⟩, ⟨"Flood", ["Disaster"]⟩], []⟩
      "Flood" "Flood_1"
      = .ok ⟨[⟨"Disaster", []⟩, ⟨"Flood", ["Disaster"]⟩], [⟨"Flood_1", "Flood", []⟩]⟩ := rfl
  have h3 := Built.createInst h2 e3
  have h4 : Built (setProperty
      ⟨[⟨"Disaster", []⟩, ⟨"Flood", ["Disaster"]⟩], [⟨"Flood_1", "Flood", []⟩]⟩
      "Flood_1" "hasName" [Value.lit "May Flood"]) := Built.setProp h3
  have h5 : Built (appendProperty (setProperty
      ⟨[⟨"Disaster", []⟩, ⟨"Flood", ["Disaster"]⟩], [⟨"Flood_1", "Flood", []⟩]⟩
      "Flood_1" "hasName" [Value.lit "May Flood"])
      "Flood_1" "severityLevel" (Value.lit "High")) := Built.appendProp h4
  have heq : appendProperty (setProperty
      ⟨[⟨"Disaster", []⟩, ⟨"Flood", ["Disaster"]⟩], [⟨"Flood_1", "Flood", []⟩]⟩
      "Flood_1" "hasName" [Value.lit "May Flood"])
      "Flood_1" "severityLevel" (Value.lit "High") = demoStore := by decide
  rw [← heq]
  exact h5

/-- Witness for C2 at the demo store. -/
theorem load_save_roundtrip_witness :
    Built demoStore ∧ load (save demoStore) = demoStore :=
  ⟨demoStore_built, load_save_roundtrip demoStore demoStore_built⟩
